import Mathlib

/-!
Shallow embedding of the exoplanet demo web application (`website/app.py`).

The application has two POST handlers:

* `predict` — placeholder classifier: parses three float form fields with a
  silent `0.0` fallback and always renders fixed zero probabilities.
* `upload` — light-curve upload: reads a CSV with pandas, and when the
  `lightkurve` dependency is present and the frame has `time` and `flux`
  columns, runs a box-least-squares period search, derives a radius ratio,
  and appends a `{name, period, radius}` record to the `custom` array of a
  JSON catalog file via read-modify-write.

External library calls (pandas CSV parsing, the lightkurve
flatten/periodogram pipeline, numpy square root, the traceback formatter)
are modelled as fields of an environment record `SciEnv`; every fallible
call returns `Except String`, a raised exception being the `error` case.
Numbers are modelled as rationals.  The persisted JSON file is modelled by
a small JSON value type together with a `CatalogFile` state (missing,
unreadable, or parsed content).  The write `open(data_path, 'w');
json.dump(...)` sits in `except: pass`; since `open(..., 'w')` truncates
before the dump runs, a raising write is modelled by a `WriteMode`
distinguishing a failing `open` (prior file untouched) from a failing dump
(file left truncated/unreadable, or holding the full new content when only
flush/close fails).  The rendered template arguments (`message`, `dips`,
`analysis`) are the observable response.
-/

/-- JSON values, as produced by `json.load` / consumed by `json.dump`. -/
inductive Json where
  | null : Json
  | bool : Bool → Json
  | num : ℚ → Json
  | str : String → Json
  | arr : List Json → Json
  | obj : List (String × Json) → Json

/-- State of the persisted catalog file `exoplanet_webapp/static/data/exoplanets.json`:
absent, present but raising on `open`/`json.load`, or parsed to a JSON value. -/
inductive CatalogFile where
  | missing : CatalogFile
  | corrupt : CatalogFile
  | parsed : Json → CatalogFile

/-- Python dict/str/list lookup of a string key, first match (dict keys are unique). -/
def lookupKey (k : String) : List (String × Json) → Option Json
  | [] => none
  | kv :: rest => if kv.1 = k then some kv.2 else lookupKey k rest

/-- Whether an association list holds the key (Python `key in dict`). -/
def hasKey (k : String) : List (String × Json) → Bool
  | [] => false
  | kv :: rest => if kv.1 = k then true else hasKey k rest

/-- Python `d[k] = v` on a dict: replace the value at an existing key, else
append the binding (insertion order preserved, as in Python 3.7+ dicts). -/
def setKey (k : String) (v : Json) (fields : List (String × Json)) : List (String × Json) :=
  if hasKey k fields then fields.map (fun kv => if kv.1 = k then (kv.1, v) else kv)
  else fields ++ [(k, v)]

/-- Python `==` between a JSON value and a string (used by `in` on lists). -/
def jsonElemEqStr : Json → String → Bool
  | .str s, k => s = k
  | _, _ => false

/-- Substring test on character lists (Python `sub in s` on strings). -/
def charsContain (needle : List Char) : List Char → Bool
  | [] => needle.isEmpty
  | c :: rest => needle.isPrefixOf (c :: rest) || charsContain needle rest

/-- Python `key in current_data`: key test on dicts, element test on lists,
substring test on strings, `TypeError` on non-iterable values. -/
def jsonContains (j : Json) (k : String) : Except String Bool :=
  match j with
  | .obj fields => .ok (hasKey k fields)
  | .arr xs => .ok (xs.any (fun x => jsonElemEqStr x k))
  | .str s => .ok (charsContain k.data s.data)
  | _ => .error "TypeError: argument of type is not iterable"

/-- Python `current_data[k] = v`: item assignment, `TypeError` off dicts. -/
def jsonSetItem (j : Json) (k : String) (v : Json) : Except String Json :=
  match j with
  | .obj fields => .ok (.obj (setKey k v fields))
  | _ => .error "TypeError: object does not support item assignment"

/-- Python `current_data[k]`: subscription with a string key. -/
def jsonGetItem (j : Json) (k : String) : Except String Json :=
  match j with
  | .obj fields =>
    match lookupKey k fields with
    | some v => .ok v
    | none => .error "KeyError"
  | .arr _ => .error "TypeError: list indices must be integers or slices, not str"
  | .str _ => .error "TypeError: string indices must be integers"
  | _ => .error "TypeError: object is not subscriptable"

/-- Python `xs.append(r)`: `AttributeError` on anything but a list. -/
def jsonAppend (v r : Json) : Except String Json :=
  match v with
  | .arr xs => .ok (.arr (xs ++ [r]))
  | _ => .error "AttributeError: object has no attribute append"

/-- The catalog-update statements of the upload handler:
`if 'custom' not in current_data: current_data['custom'] = []` followed by
`current_data['custom'].append(record)` (the in-place append modelled as
get, append, set). -/
def updateCustom (j record : Json) : Except String Json :=
  match jsonContains j "custom" with
  | .error e => .error e
  | .ok b =>
    match (if b then Except.ok j else jsonSetItem j "custom" (Json.arr [])) with
    | .error e => .error e
    | .ok j1 =>
      match jsonGetItem j1 "custom" with
      | .error e => .error e
      | .ok v =>
        match jsonAppend v record with
        | .error e => .error e
        | .ok v1 => jsonSetItem j1 "custom" v1

/-- The guarded catalog read: `try: json.load(open(...)) except: current_data = {}`. -/
def readCatalog : CatalogFile → Json
  | .parsed j => j
  | _ => .obj []

/-- Uploaded multipart file: client-supplied filename and raw byte content
(bytes modelled as characters). -/
structure UploadedFile where
  filename : String
  content : String

/-- Result of `pd.read_csv`: named columns of numbers. -/
structure DataFrame where
  cols : List (String × List ℚ)

/-- Membership of a name in `df.columns`. -/
def hasCol (df : DataFrame) (k : String) : Bool :=
  df.cols.any (fun kv => kv.1 == k)

/-- Column values `df[k].values` (the column is present when accessed). -/
def colVals (df : DataFrame) (k : String) : List ℚ :=
  (List.lookup k df.cols).getD []

/-- Outcome of the guarded catalog write
`try: open(data_path, 'w'); json.dump(...) except: pass`.  `open(path, 'w')`
truncates the file before `json.dump` runs, so the failure modes differ in
what they leave behind: `ok` — the dump completes and the file holds the new
serialization; `openFails` — `open` itself raises (e.g. permission denied)
and the prior file is untouched; `dumpPartial` — the dump raises after the
truncation, leaving the empty file or a strict prefix of the serialization
(the serialized top-level value here is always a dict, so a strict prefix is
never balanced JSON and a later `json.load` raises); `dumpAtClose` — the
failure hits only at flush/close, after the full serialization was
written. -/
inductive WriteMode where
  | ok : WriteMode
  | openFails : WriteMode
  | dumpPartial : WriteMode
  | dumpAtClose : WriteMode

/-- Catalog file state after the guarded write of `newJ` over prior state
`fs`, by write outcome. -/
def writeResult (m : WriteMode) (fs : CatalogFile) (newJ : Json) : CatalogFile :=
  match m with
  | .ok => .parsed newJ
  | .openFails => fs
  | .dumpPartial => .corrupt
  | .dumpAtClose => .parsed newJ

/-- The environment of external-library behaviour the handler runs against:
availability flags for `lightkurve`/`pandas`, the CSV reader, the
flatten + box-least-squares pipeline (returning period and power at max
power for given period bounds), `np.sqrt`, the traceback formatter, and
how the catalog write goes. -/
structure SciEnv where
  lkAvailable : Bool
  pdAvailable : Bool
  readCsv : String → Except String DataFrame
  bls : List ℚ → List ℚ → ℚ → ℚ → Except String (ℚ × ℚ)
  sqrt : ℚ → ℚ
  traceback : String → String
  writeMode : WriteMode

/-- The per-upload analysis summary dictionary. -/
structure AnalysisResult where
  filename : String
  best_period : ℚ
  planet_radius : ℚ
  deriving DecidableEq

/-- The rendered message, one constructor per message assignment in the
handler, carrying the data interpolated into the corresponding f-string:
`noFile` = "No file uploaded or empty filename.",
`analysisComplete p r` = "Analysis complete: period=… radius=…",
`unableToAnalyze name n` = "Received file: {name} (showing first {n} bytes). Unable to analyze …",
`errorProcessing e tb` = "Error processing file: {e}\n{tb}". -/
inductive Msg where
  | noFile : Msg
  | analysisComplete : ℚ → ℚ → Msg
  | unableToAnalyze : String → Nat → Msg
  | errorProcessing : String → String → Msg
  deriving DecidableEq

/-- Observable outcome of one POST to `/upload`: the template arguments
(`message`, `dips`, `analysis`), the catalog file state afterwards, and
whether the handler opened the catalog file at all. -/
structure UploadOutcome where
  message : Msg
  dips : List ℚ
  analysis : Option AnalysisResult
  catalogFile : CatalogFile
  catalogRead : Bool

/-- `radius_ratio = np.sqrt(abs(depth)) if depth > 0 else 0.0`. -/
def computeRadius (env : SciEnv) (depth : ℚ) : ℚ :=
  if depth > 0 then env.sqrt |depth| else 0

/-- `os.path.splitext` (posix): split off the extension at the last dot of
the basename, unless the basename up to that dot is all dots. -/
def lastIdxOf (cs : List Char) (c : Char) : Option Nat :=
  match cs.reverse.findIdx? (fun x => x == c) with
  | none => none
  | some i => some (cs.length - 1 - i)

/-- The `(root, ext)` pair of `os.path.splitext`. -/
def splitext (p : String) : String × String :=
  let cs := p.data
  match lastIdxOf cs '.' with
  | none => (p, "")
  | some d =>
    match lastIdxOf cs '/' with
    | some si =>
      if si < d then
        if ((cs.drop (si + 1)).take (d - (si + 1))).any (fun ch => ch != '.') then
          (String.mk (cs.take d), String.mk (cs.drop d))
        else (p, "")
      else (p, "")
    | none =>
      if (cs.take d).any (fun ch => ch != '.') then
        (String.mk (cs.take d), String.mk (cs.drop d))
      else (p, "")

/-- The `{'name': …, 'period': …, 'radius': …}` record appended to `custom`. -/
def recordJson (name : String) (period radius : ℚ) : Json :=
  Json.obj [("name", .str name), ("period", .num period), ("radius", .num radius)]

/-- The analysis branch of the handler, reached when `lightkurve` is present
and the frame has both required columns: run the BLS search over periods in
[0.2, 30.0], derive the radius ratio, build the result dictionary, then
read-modify-write the catalog. -/
def analyzeDF (env : SciEnv) (f : UploadedFile) (df : DataFrame) (fs : CatalogFile) :
    UploadOutcome :=
  match env.bls (colVals df "time") (colVals df "flux") 0.2 30.0 with
  | .error e =>
    { message := .errorProcessing e (env.traceback e), dips := [], analysis := none,
      catalogFile := fs, catalogRead := false }
  | .ok (p, pw) =>
    let radius := computeRadius env pw
    let ar : AnalysisResult := { filename := f.filename, best_period := p, planet_radius := radius }
    let record := recordJson (splitext f.filename).1 p radius
    match updateCustom (readCatalog fs) record with
    | .error e =>
      { message := .errorProcessing e (env.traceback e), dips := [], analysis := some ar,
        catalogFile := fs, catalogRead := true }
    | .ok newJ =>
      { message := .analysisComplete p radius, dips := [], analysis := some ar,
        catalogFile := writeResult env.writeMode fs newJ, catalogRead := true }

/-- The body of the handler for a non-empty upload: read the CSV when pandas
is present (a raise lands in the outer except), then either analyze or
report the unable-to-analyze message with the byte count of
`uploaded_file.read(1024)` — zero when pandas already consumed the stream. -/
def uploadFile (env : SciEnv) (f : UploadedFile) (fs : CatalogFile) : UploadOutcome :=
  match (if env.pdAvailable then Except.map some (env.readCsv f.content) else Except.ok none) with
  | .error e =>
    { message := .errorProcessing e (env.traceback e), dips := [], analysis := none,
      catalogFile := fs, catalogRead := false }
  | .ok df? =>
    match df? with
    | some df =>
      if env.lkAvailable && hasCol df "time" && hasCol df "flux" then analyzeDF env f df fs
      else
        { message := .unableToAnalyze f.filename 0, dips := [], analysis := none,
          catalogFile := fs, catalogRead := false }
    | none =>
      { message := .unableToAnalyze f.filename (min 1024 f.content.length), dips := [],
        analysis := none, catalogFile := fs, catalogRead := false }

/-- The `/upload` handler: default message when no file or an empty filename
was posted, otherwise the guarded analysis body. -/
def upload (env : SciEnv) (file? : Option UploadedFile) (fs : CatalogFile) : UploadOutcome :=
  match file? with
  | none =>
    { message := .noFile, dips := [], analysis := none, catalogFile := fs, catalogRead := false }
  | some f =>
    if f.filename = "" then
      { message := .noFile, dips := [], analysis := none, catalogFile := fs, catalogRead := false }
    else uploadFile env f fs

/-- Environment of the `/predict` handler: Python `float(...)`, `none`
meaning a raised `ValueError`. -/
structure PredictEnv where
  parseFloat : String → Option ℚ

/-- The posted form: `request.form.get` for each of the three fields. -/
structure PredictForm where
  orbital_period : Option String
  transit_duration : Option String
  planet_radius : Option String

/-- `try: float(request.form.get(k, 0)) except ValueError: 0.0`. -/
def getFloat (env : PredictEnv) (v : Option String) : ℚ :=
  match v with
  | none => 0
  | some s => (env.parseFloat s).getD 0

/-- Template arguments rendered by the `/predict` handler. -/
structure PredictResult where
  predicted_class : String
  probabilities : List (String × ℚ)
  contributions : List (String × ℚ)
  features : List ℚ

/-- The `/predict` handler: placeholder classification. -/
def predict (env : PredictEnv) (form : PredictForm) : PredictResult :=
  let orbital_period := getFloat env form.orbital_period
  let transit_duration := getFloat env form.transit_duration
  let planet_radius := getFloat env form.planet_radius
  { predicted_class := "Pending integration"
    probabilities :=
      [("Confirmed exoplanet", 0), ("Planet candidate", 0), ("False positive", 0)]
    contributions := []
    features := [orbital_period, transit_duration, planet_radius] }

/-- A JSON value of the record shape `{name: str, period: num, radius: num}`. -/
def isRecordJson : Json → Bool
  | .obj [(k1, .str _), (k2, .num _), (k3, .num _)] =>
    k1 == "name" && k2 == "period" && k3 == "radius"
  | _ => false

/-- A JSON array all of whose elements are records. -/
def isRecordList : Json → Bool
  | .arr xs => xs.all isRecordJson
  | _ => false

/-- A well-formed catalog: a JSON mapping from dataset names to record lists. -/
def wellFormedCatalog : Json → Bool
  | .obj fields => fields.all (fun kv => isRecordList kv.2)
  | _ => false

/-- A catalog file whose parsed content is a well-formed catalog. -/
def wellFormedCatalogFile : CatalogFile → Bool
  | .parsed j => wellFormedCatalog j
  | _ => false

/-- Key lookup in the parsed catalog file content. -/
def catalogLookup (fs : CatalogFile) (k : String) : Option Json :=
  match fs with
  | .parsed (.obj fields) => lookupKey k fields
  | _ => none

/-- A concrete data frame with the two required columns, for witnesses. -/
def dfOk : DataFrame := ⟨[("time", [0, 1, 2]), ("flux", [1, 1, 1])]⟩

/-- A concrete benign environment: both libraries present, CSV parse
succeeds, the period search returns the minimum period with power 1. -/
def envOk : SciEnv :=
  { lkAvailable := true, pdAvailable := true, readCsv := fun _ => .ok dfOk,
    bls := fun _ _ mn _ => .ok (mn, 1), sqrt := fun q => q,
    traceback := fun e => e, writeMode := .ok }

/-- A concrete well-formed upload, for witnesses. -/
def fileOk : UploadedFile := { filename := "kepler.csv", content := "time,flux\n0,1\n1,1\n2,1\n" }

/-- A concrete predict environment where every parse raises `ValueError`. -/
def envP : PredictEnv := { parseFloat := fun _ => none }

/-- A concrete form with non-numeric and missing fields, for witnesses. -/
def formP : PredictForm :=
  { orbital_period := some "abc", transit_duration := none, planet_radius := some "3x" }

theorem hasKey_false_lookup {k : String} {fields : List (String × Json)}
    (h : hasKey k fields = false) : lookupKey k fields = none := by
  induction fields with
  | nil => rfl
  | cons kv rest ih =>
    simp only [hasKey, lookupKey] at *
    by_cases hk : kv.1 = k
    · simp [hk] at h
    · simpa [hk] using ih (by simpa [hk] using h)

theorem lookup_some_hasKey {k : String} {fields : List (String × Json)} {v : Json}
    (h : lookupKey k fields = some v) : hasKey k fields = true := by
  induction fields with
  | nil => simp [lookupKey] at h
  | cons kv rest ih =>
    simp only [hasKey, lookupKey] at *
    by_cases hk : kv.1 = k
    · simp [hk]
    · simpa [hk] using ih (by simpa [hk] using h)

theorem lookup_map_replace {k : String} {v : Json} {fields : List (String × Json)}
    (h : hasKey k fields = true) :
    lookupKey k (fields.map (fun kv => if kv.1 = k then (kv.1, v) else kv)) = some v := by
  induction fields with
  | nil => simp [hasKey] at h
  | cons kv rest ih =>
    simp only [hasKey] at h
    by_cases hk : kv.1 = k
    · simp [lookupKey, hk]
    · simp only [List.map_cons, if_neg hk, lookupKey]
      simpa [hk] using ih (by simpa [hk] using h)

theorem lookup_map_replace_ne {k k2 : String} {v : Json} {fields : List (String × Json)}
    (h : ¬ k2 = k) :
    lookupKey k2 (fields.map (fun kv => if kv.1 = k then (kv.1, v) else kv)) =
      lookupKey k2 fields := by
  induction fields with
  | nil => rfl
  | cons kv rest ih =>
    simp only [List.map_cons]
    by_cases hk : kv.1 = k
    · have hne : ¬ kv.1 = k2 := by rw [hk]; intro hc; exact h hc.symm
      rw [if_pos hk]
      show (if kv.1 = k2 then some v else _) = _
      rw [if_neg hne, ih]
      show _ = lookupKey k2 (kv :: rest)
      rw [show lookupKey k2 (kv :: rest) = if kv.1 = k2 then some kv.2 else lookupKey k2 rest
        from rfl, if_neg hne]
    · rw [if_neg hk]
      show (if kv.1 = k2 then some kv.2 else _) = (if kv.1 = k2 then some kv.2 else _)
      by_cases hk2 : kv.1 = k2
      · rw [if_pos hk2, if_pos hk2]
      · rw [if_neg hk2, if_neg hk2, ih]

theorem lookup_append_one {k : String} {v : Json} {fields : List (String × Json)}
    (h : hasKey k fields = false) :
    lookupKey k (fields ++ [(k, v)]) = some v := by
  induction fields with
  | nil => simp [lookupKey]
  | cons kv rest ih =>
    simp only [hasKey] at h
    by_cases hk : kv.1 = k
    · simp [hk] at h
    · simpa [lookupKey, hk] using ih (by simpa [hk] using h)

theorem lookup_append_one_ne {k k2 : String} {v : Json} {fields : List (String × Json)}
    (h : ¬ k2 = k) :
    lookupKey k2 (fields ++ [(k, v)]) = lookupKey k2 fields := by
  induction fields with
  | nil =>
    have h1 : ¬ k = k2 := fun hc => h hc.symm
    simp [lookupKey, h1]
  | cons kv rest ih =>
    by_cases hk2 : kv.1 = k2
    · simp [lookupKey, hk2]
    · simp [lookupKey, hk2, ih]

theorem hasKey_append_one {k : String} {v : Json} (fields : List (String × Json)) :
    hasKey k (fields ++ [(k, v)]) = true := by
  induction fields with
  | nil => simp [hasKey]
  | cons kv rest ih =>
    by_cases hk : kv.1 = k
    · simp [hasKey, hk]
    · simp [hasKey, hk, ih]

theorem all_map_replace {k : String} {v : Json} {fields : List (String × Json)}
    (hall : fields.all (fun kv => isRecordList kv.2) = true) (hv : isRecordList v = true) :
    (fields.map (fun kv => if kv.1 = k then (kv.1, v) else kv)).all
      (fun kv => isRecordList kv.2) = true := by
  induction fields with
  | nil => rfl
  | cons kv rest ih =>
    simp only [List.all_cons, Bool.and_eq_true] at hall
    by_cases hk : kv.1 = k
    · simp [hk, hv, ih hall.2]
    · simp [hk, hall.1, ih hall.2]

theorem lookup_all {k : String} {fields : List (String × Json)} {v : Json}
    (h : lookupKey k fields = some v)
    (hall : fields.all (fun kv => isRecordList kv.2) = true) : isRecordList v = true := by
  induction fields with
  | nil => simp [lookupKey] at h
  | cons kv rest ih =>
    simp only [List.all_cons, Bool.and_eq_true] at hall
    by_cases hk : kv.1 = k
    · simp only [lookupKey, if_pos hk, Option.some.injEq] at h
      rw [← h]; exact hall.1
    · exact ih (by simpa [lookupKey, hk] using h) hall.2

/-- Behaviour of the catalog-update statements on a parsed dict whose
`custom` entry, when present, is a list: they extend `custom` by exactly
the new record, leave every other key alone, and preserve
well-formedness of the catalog. -/
theorem updateCustom_obj (fields : List (String × Json)) (xs : List Json) (r : Json)
    (h : lookupKey "custom" fields = some (Json.arr xs) ∨
      (hasKey "custom" fields = false ∧ xs = [])) :
    ∃ fields2, updateCustom (Json.obj fields) r = Except.ok (Json.obj fields2) ∧
      lookupKey "custom" fields2 = some (Json.arr (xs ++ [r])) ∧
      (∀ k, ¬ k = "custom" → lookupKey k fields2 = lookupKey k fields) ∧
      (fields.all (fun kv => isRecordList kv.2) = true → isRecordJson r = true →
        fields2.all (fun kv => isRecordList kv.2) = true) := by
  rcases h with h | ⟨h, hxs⟩
  · have hk : hasKey "custom" fields = true := lookup_some_hasKey h
    refine ⟨fields.map (fun kv => if kv.1 = "custom" then (kv.1, Json.arr (xs ++ [r])) else kv),
      ?_, lookup_map_replace hk, fun k hke => lookup_map_replace_ne hke, ?_⟩
    · simp [updateCustom, jsonContains, hk, jsonGetItem, h, jsonAppend, jsonSetItem, setKey]
    · intro hall hr
      have hxall : xs.all isRecordJson = true := by
        have := lookup_all h hall
        simpa [isRecordList] using this
      exact all_map_replace hall (by simp [isRecordList, List.all_append, hxall, hr])
  · subst hxs
    have hlk : lookupKey "custom" (fields ++ [("custom", Json.arr [])]) = some (Json.arr []) :=
      lookup_append_one h
    have hk2 : hasKey "custom" (fields ++ [("custom", Json.arr [])]) = true :=
      hasKey_append_one fields
    refine ⟨(fields ++ [("custom", Json.arr [])]).map
        (fun kv => if kv.1 = "custom" then (kv.1, Json.arr ([] ++ [r])) else kv),
      ?_, lookup_map_replace hk2, ?_, ?_⟩
    · simp [updateCustom, jsonContains, h, jsonSetItem, setKey, jsonGetItem, hlk,
        jsonAppend, hk2]
    · intro k hke
      rw [lookup_map_replace_ne hke, lookup_append_one_ne hke]
    · intro hall hr
      have hwfapp : (fields ++ [("custom", Json.arr [])]).all
          (fun kv => isRecordList kv.2) = true := by
        rw [List.all_append, hall]
        rfl
      refine all_map_replace hwfapp ?_
      unfold isRecordList
      simp [hr]

/-- Path lemma: full success, the catalog update succeeding with result `j2`. -/
theorem upload_success_ok {env : SciEnv} {f : UploadedFile} {fs : CatalogFile}
    {df : DataFrame} {p pw : ℚ} {j2 : Json}
    (hfn : ¬ f.filename = "") (hpd : env.pdAvailable = true)
    (hread : env.readCsv f.content = Except.ok df) (hlk : env.lkAvailable = true)
    (ht : hasCol df "time" = true) (hfx : hasCol df "flux" = true)
    (hbls : env.bls (colVals df "time") (colVals df "flux") 0.2 30.0 = Except.ok (p, pw))
    (hupd : updateCustom (readCatalog fs)
      (recordJson (splitext f.filename).1 p (computeRadius env pw)) = Except.ok j2) :
    upload env (some f) fs =
      { message := .analysisComplete p (computeRadius env pw), dips := [],
        analysis := some { filename := f.filename, best_period := p,
                           planet_radius := computeRadius env pw },
        catalogFile := writeResult env.writeMode fs j2, catalogRead := true } := by
  simp [upload, uploadFile, analyzeDF, hfn, hpd, hread, hlk, ht, hfx, hbls, hupd, Except.map]

/-- Path lemma: success through the period search, but the catalog-update
statements raise (non-dict parsed content); the outer except keeps the
already-built analysis result. -/
theorem upload_update_error {env : SciEnv} {f : UploadedFile} {fs : CatalogFile}
    {df : DataFrame} {p pw : ℚ} {e : String}
    (hfn : ¬ f.filename = "") (hpd : env.pdAvailable = true)
    (hread : env.readCsv f.content = Except.ok df) (hlk : env.lkAvailable = true)
    (ht : hasCol df "time" = true) (hfx : hasCol df "flux" = true)
    (hbls : env.bls (colVals df "time") (colVals df "flux") 0.2 30.0 = Except.ok (p, pw))
    (hupd : updateCustom (readCatalog fs)
      (recordJson (splitext f.filename).1 p (computeRadius env pw)) = Except.error e) :
    upload env (some f) fs =
      { message := .errorProcessing e (env.traceback e), dips := [],
        analysis := some { filename := f.filename, best_period := p,
                           planet_radius := computeRadius env pw },
        catalogFile := fs, catalogRead := true } := by
  simp [upload, uploadFile, analyzeDF, hfn, hpd, hread, hlk, ht, hfx, hbls, hupd, Except.map]

/-- Path lemma: `pd.read_csv` raises; the outer except reports it. -/
theorem upload_csv_error {env : SciEnv} {f : UploadedFile} {fs : CatalogFile} {e : String}
    (hfn : ¬ f.filename = "") (hpd : env.pdAvailable = true)
    (hread : env.readCsv f.content = Except.error e) :
    upload env (some f) fs =
      { message := .errorProcessing e (env.traceback e), dips := [], analysis := none,
        catalogFile := fs, catalogRead := false } := by
  simp [upload, uploadFile, hfn, hpd, hread, Except.map]

/-- Path lemma: the flatten/periodogram pipeline raises. -/
theorem upload_bls_error {env : SciEnv} {f : UploadedFile} {fs : CatalogFile}
    {df : DataFrame} {e : String}
    (hfn : ¬ f.filename = "") (hpd : env.pdAvailable = true)
    (hread : env.readCsv f.content = Except.ok df) (hlk : env.lkAvailable = true)
    (ht : hasCol df "time" = true) (hfx : hasCol df "flux" = true)
    (hbls : env.bls (colVals df "time") (colVals df "flux") 0.2 30.0 = Except.error e) :
    upload env (some f) fs =
      { message := .errorProcessing e (env.traceback e), dips := [], analysis := none,
        catalogFile := fs, catalogRead := false } := by
  simp [upload, uploadFile, analyzeDF, hfn, hpd, hread, hlk, ht, hfx, hbls, Except.map]

/-- Path lemma: pandas parsed the file but `lightkurve` is absent or a
required column is missing; the preview read happens at end of stream. -/
theorem upload_unable_consumed {env : SciEnv} {f : UploadedFile} {fs : CatalogFile}
    {df : DataFrame}
    (hfn : ¬ f.filename = "") (hpd : env.pdAvailable = true)
    (hread : env.readCsv f.content = Except.ok df)
    (hc : (env.lkAvailable && hasCol df "time" && hasCol df "flux") = false) :
    upload env (some f) fs =
      { message := .unableToAnalyze f.filename 0, dips := [], analysis := none,
        catalogFile := fs, catalogRead := false } := by
  simp [upload, uploadFile, hfn, hpd, hread, hc, Except.map]

/-- Path lemma: pandas is absent; the preview reads up to 1024 bytes. -/
theorem upload_unable_noPd {env : SciEnv} {f : UploadedFile} {fs : CatalogFile}
    (hfn : ¬ f.filename = "") (hpd : env.pdAvailable = false) :
    upload env (some f) fs =
      { message := .unableToAnalyze f.filename (min 1024 f.content.length), dips := [],
        analysis := none, catalogFile := fs, catalogRead := false } := by
  simp [upload, uploadFile, hfn, hpd]

theorem hasKey_true_lookup {k : String} {fields : List (String × Json)}
    (h : hasKey k fields = true) : ∃ v, lookupKey k fields = some v := by
  induction fields with
  | nil => simp [hasKey] at h
  | cons kv rest ih =>
    by_cases hk : kv.1 = k
    · exact ⟨kv.2, by simp [lookupKey, hk]⟩
    · simp only [hasKey, if_neg hk] at h
      obtain ⟨v, hv⟩ := ih h
      exact ⟨v, by simp [lookupKey, hk, hv]⟩

theorem isRecordJson_recordJson (name : String) (p r : ℚ) :
    isRecordJson (recordJson name p r) = true := rfl

theorem computeRadius_pos_eq (env : SciEnv) (pw : ℚ) :
    computeRadius env pw = if pw > 0 then env.sqrt pw else 0 := by
  unfold computeRadius
  by_cases h : pw > 0
  · rw [if_pos h, if_pos h, abs_of_pos h]
  · rw [if_neg h, if_neg h]

/-- C1 (counterexample): with a benign environment except that
`open(data_path, 'w')` raises (e.g. permission denied; swallowed by
`except: pass`), the analysis succeeds — the response even announces
completion — yet no record is appended: the persisted catalog is
unchanged. -/
theorem upload_write_failure_no_append :
    (upload { envOk with writeMode := WriteMode.openFails } (some fileOk)
        (CatalogFile.parsed (Json.obj []))).analysis =
      some { filename := "kepler.csv", best_period := 0.2, planet_radius := 1 } ∧
    (upload { envOk with writeMode := WriteMode.openFails } (some fileOk)
        (CatalogFile.parsed (Json.obj []))).message = Msg.analysisComplete 0.2 1 ∧
    (upload { envOk with writeMode := WriteMode.openFails } (some fileOk)
        (CatalogFile.parsed (Json.obj []))).catalogFile = CatalogFile.parsed (Json.obj []) :=
  ⟨rfl, rfl, rfl⟩

/-- C1 (amended): for an upload whose CSV parses with both `time` and `flux`
columns, with the scientific dependency present and the period search
succeeding, provided additionally that the catalog write does not fail and
the parsed prior catalog is a mapping whose `custom` entry, if present, is a
list, the handler appends exactly one `{name, period, radius}` record to
the `custom` array and leaves every other dataset key unchanged. -/
theorem upload_appends_record_of_write_ok
    (env : SciEnv) (f : UploadedFile) (fs : CatalogFile) (df : DataFrame) (p pw : ℚ)
    (fields : List (String × Json)) (xs : List Json)
    (hfn : ¬ f.filename = "") (hpd : env.pdAvailable = true)
    (hread : env.readCsv f.content = Except.ok df) (hlk : env.lkAvailable = true)
    (ht : hasCol df "time" = true) (hfx : hasCol df "flux" = true)
    (hbls : env.bls (colVals df "time") (colVals df "flux") 0.2 30.0 = Except.ok (p, pw))
    (hfs : readCatalog fs = Json.obj fields)
    (hx : lookupKey "custom" fields = some (Json.arr xs) ∨
      (hasKey "custom" fields = false ∧ xs = []))
    (hw : env.writeMode = WriteMode.ok) :
    (upload env (some f) fs).message = Msg.analysisComplete p (computeRadius env pw) ∧
    catalogLookup (upload env (some f) fs).catalogFile "custom" =
      some (Json.arr (xs ++ [recordJson (splitext f.filename).1 p (computeRadius env pw)])) ∧
    ∀ k, ¬ k = "custom" →
      catalogLookup (upload env (some f) fs).catalogFile k = lookupKey k fields := by
  obtain ⟨fields2, hupd, hself, hothers, _⟩ :=
    updateCustom_obj fields xs (recordJson (splitext f.filename).1 p (computeRadius env pw)) hx
  rw [← hfs] at hupd
  have heq := upload_success_ok hfn hpd hread hlk ht hfx hbls hupd
  rw [heq]
  refine ⟨rfl, ?_, ?_⟩
  · simp only [hw, writeResult, catalogLookup]
    exact hself
  · intro k hk
    simp only [hw, writeResult, catalogLookup]
    exact hothers k hk

/-- C1 (witness): a concrete successful upload against an empty parsed
catalog appends the one record. -/
theorem upload_appends_record_witness :
    catalogLookup (upload envOk (some fileOk)
        (CatalogFile.parsed (Json.obj []))).catalogFile "custom" =
      some (Json.arr ([] ++
        [recordJson (splitext fileOk.filename).1 0.2 (computeRadius envOk 1)])) :=
  (upload_appends_record_of_write_ok envOk fileOk (CatalogFile.parsed (Json.obj [])) dfOk
    0.2 1 [] [] (by decide) rfl rfl rfl rfl rfl rfl rfl (Or.inr ⟨rfl, rfl⟩) rfl).2.1

/-- C2: on a successful analysis the reported planet radius (both in the
analysis result and in the appended catalog record) is the square root of
the power at maximum power when that power is strictly positive and `0`
otherwise, hence nonnegative whenever the square root is nonnegative on
nonnegative inputs. -/
theorem planet_radius_spec
    (env : SciEnv) (f : UploadedFile) (fs : CatalogFile) (df : DataFrame) (p pw : ℚ)
    (fields : List (String × Json)) (xs : List Json)
    (hfn : ¬ f.filename = "") (hpd : env.pdAvailable = true)
    (hread : env.readCsv f.content = Except.ok df) (hlk : env.lkAvailable = true)
    (ht : hasCol df "time" = true) (hfx : hasCol df "flux" = true)
    (hbls : env.bls (colVals df "time") (colVals df "flux") 0.2 30.0 = Except.ok (p, pw))
    (hfs : readCatalog fs = Json.obj fields)
    (hx : lookupKey "custom" fields = some (Json.arr xs) ∨
      (hasKey "custom" fields = false ∧ xs = []))
    (hw : env.writeMode = WriteMode.ok)
    (hsq : ∀ q : ℚ, 0 ≤ q → 0 ≤ env.sqrt q) :
    (upload env (some f) fs).analysis =
      some { filename := f.filename, best_period := p,
             planet_radius := if pw > 0 then env.sqrt pw else 0 } ∧
    0 ≤ (if pw > 0 then env.sqrt pw else 0) ∧
    catalogLookup (upload env (some f) fs).catalogFile "custom" =
      some (Json.arr (xs ++
        [recordJson (splitext f.filename).1 p (if pw > 0 then env.sqrt pw else 0)])) := by
  obtain ⟨fields2, hupd, hself, _, _⟩ :=
    updateCustom_obj fields xs (recordJson (splitext f.filename).1 p (computeRadius env pw)) hx
  rw [← hfs] at hupd
  have heq := upload_success_ok hfn hpd hread hlk ht hfx hbls hupd
  rw [heq, ← computeRadius_pos_eq]
  refine ⟨rfl, ?_, ?_⟩
  · unfold computeRadius
    by_cases h : pw > 0
    · rw [if_pos h]
      exact hsq _ (abs_nonneg pw)
    · rw [if_neg h]
  · simp only [hw, writeResult, catalogLookup]
    exact hself

/-- C2 (witness): the concrete successful upload has radius
`sqrt 1 = 1 ≥ 0` and the appended record carries the same value. -/
theorem planet_radius_spec_witness :
    (upload envOk (some fileOk) (CatalogFile.parsed (Json.obj []))).analysis =
      some { filename := "kepler.csv", best_period := 0.2,
             planet_radius := if (1 : ℚ) > 0 then envOk.sqrt 1 else 0 } ∧
    0 ≤ (if (1 : ℚ) > 0 then envOk.sqrt 1 else 0) :=
  ⟨(planet_radius_spec envOk fileOk (CatalogFile.parsed (Json.obj [])) dfOk 0.2 1 [] []
      (by decide) rfl rfl rfl rfl rfl rfl rfl (Or.inr ⟨rfl, rfl⟩) rfl
      (fun q hq => hq)).1,
   (planet_radius_spec envOk fileOk (CatalogFile.parsed (Json.obj [])) dfOk 0.2 1 [] []
      (by decide) rfl rfl rfl rfl rfl rfl rfl (Or.inr ⟨rfl, rfl⟩) rfl
      (fun q hq => hq)).2.1⟩

/-- C3: the handler passes the period bounds `minimum_period=0.2` and
`maximum_period=30.0` to the periodogram and reports its period at maximum
power unchanged, so (the library honouring requested bounds) every analysis
result the handler ever returns has `best_period` inside `[0.2, 30.0]`. -/
theorem best_period_in_range (env : SciEnv) (file? : Option UploadedFile)
    (fs : CatalogFile) (a : AnalysisResult)
    (hc : ∀ t fl mn mx p pw, mn ≤ mx → env.bls t fl mn mx = Except.ok (p, pw) →
      mn ≤ p ∧ p ≤ mx)
    (ha : (upload env file? fs).analysis = some a) :
    0.2 ≤ a.best_period ∧ a.best_period ≤ 30.0 := by
  cases file? with
  | none => simp [upload] at ha
  | some f =>
    by_cases hfn : f.filename = ""
    · simp [upload, hfn] at ha
    · simp only [upload, if_neg hfn] at ha
      unfold uploadFile at ha
      cases hdf : (if env.pdAvailable then Except.map some (env.readCsv f.content)
          else Except.ok none) with
      | error e => rw [hdf] at ha; simp at ha
      | ok df? =>
        rw [hdf] at ha
        cases df? with
        | none => simp at ha
        | some df =>
          by_cases hcond : (env.lkAvailable && hasCol df "time" && hasCol df "flux") = true
          · simp only [hcond, if_true] at ha
            unfold analyzeDF at ha
            cases hbls : env.bls (colVals df "time") (colVals df "flux") 0.2 30.0 with
            | error e => rw [hbls] at ha; simp at ha
            | ok pr =>
              obtain ⟨p, pw⟩ := pr
              rw [hbls] at ha
              dsimp only at ha
              have hp := hc _ _ _ _ _ _ (by norm_num) hbls
              cases hupd : updateCustom (readCatalog fs)
                  (recordJson (splitext f.filename).1 p (computeRadius env pw)) with
              | error e =>
                rw [hupd] at ha
                simp only [Option.some.injEq] at ha
                rw [← ha]
                exact hp
              | ok j2 =>
                rw [hupd] at ha
                simp only [Option.some.injEq] at ha
                rw [← ha]
                exact hp
          · simp only [hcond] at ha
            simp at ha

/-- C3 (witness): the concrete upload yields best period `0.2`, inside the
interval. -/
theorem best_period_in_range_witness :
    (0.2 : ℚ) ≤ (AnalysisResult.mk "kepler.csv" 0.2 1).best_period ∧
    (AnalysisResult.mk "kepler.csv" 0.2 1).best_period ≤ 30.0 :=
  best_period_in_range envOk (some fileOk) CatalogFile.missing
    (AnalysisResult.mk "kepler.csv" 0.2 1)
    (fun t fl mn mx p pw hle heq => by
      simp only [envOk, Except.ok.injEq, Prod.mk.injEq] at heq
      obtain ⟨rfl, rfl⟩ := heq
      exact ⟨le_refl mn, hle⟩)
    rfl

/-- C4: an exception raised while parsing the CSV or while running the
analysis pipeline is not propagated: the handler returns a rendered
response whose message carries the exception text and the formatted
traceback, with `analysis = None` and the catalog untouched. -/
theorem exceptions_caught (env : SciEnv) (f : UploadedFile) (fs : CatalogFile) (e : String)
    (hfn : ¬ f.filename = "")
    (h : (env.pdAvailable = true ∧ env.readCsv f.content = Except.error e) ∨
      ∃ df, env.pdAvailable = true ∧ env.readCsv f.content = Except.ok df ∧
        env.lkAvailable = true ∧ hasCol df "time" = true ∧ hasCol df "flux" = true ∧
        env.bls (colVals df "time") (colVals df "flux") 0.2 30.0 = Except.error e) :
    upload env (some f) fs =
      { message := Msg.errorProcessing e (env.traceback e), dips := [], analysis := none,
        catalogFile := fs, catalogRead := false } := by
  rcases h with ⟨hpd, hread⟩ | ⟨df, hpd, hread, hlk, ht, hfx, hbls⟩
  · exact upload_csv_error hfn hpd hread
  · exact upload_bls_error hfn hpd hread hlk ht hfx hbls

/-- C4 (witness): a concrete raising CSV parse is caught and surfaced. -/
theorem exceptions_caught_witness :
    upload { envOk with readCsv := fun _ => Except.error "ValueError" } (some fileOk)
        CatalogFile.missing =
      { message := Msg.errorProcessing "ValueError" "ValueError", dips := [],
        analysis := none, catalogFile := CatalogFile.missing, catalogRead := false } :=
  exceptions_caught { envOk with readCsv := fun _ => Except.error "ValueError" } fileOk
    CatalogFile.missing "ValueError" (by decide) (Or.inl ⟨rfl, rfl⟩)

/-- C5 (counterexample): the claim fails for a file received while the
scientific dependency is absent but whose CSV parse raises: pandas runs
first and the handler returns the error-processing message, not the
"unable to analyze" message. -/
theorem unable_message_cex :
    upload { envOk with lkAvailable := false, readCsv := fun _ => Except.error "ParserError" }
        (some fileOk) CatalogFile.missing =
      { message := Msg.errorProcessing "ParserError" "ParserError", dips := [],
        analysis := none, catalogFile := CatalogFile.missing, catalogRead := false } := rfl

/-- C5 (amended): for every uploaded file that either lacks a required
column or arrives while `lightkurve` is absent — provided its CSV parse
does not itself raise (or pandas is absent, so no parse is attempted) —
the handler performs no analysis, leaves the catalog untouched and unread,
and returns the informational message with the filename and the byte count
of the preview read (zero when pandas consumed the stream). -/
theorem unable_message_spec (env : SciEnv) (f : UploadedFile) (fs : CatalogFile)
    (hfn : ¬ f.filename = "")
    (h : env.pdAvailable = false ∨
      ∃ df, env.pdAvailable = true ∧ env.readCsv f.content = Except.ok df ∧
        (env.lkAvailable && hasCol df "time" && hasCol df "flux") = false) :
    upload env (some f) fs =
      { message := Msg.unableToAnalyze f.filename
          (if env.pdAvailable then 0 else min 1024 f.content.length),
        dips := [], analysis := none, catalogFile := fs, catalogRead := false } := by
  rcases h with hpd | ⟨df, hpd, hread, hc⟩
  · rw [upload_unable_noPd hfn hpd]
    simp [hpd]
  · rw [upload_unable_consumed hfn hpd hread hc]
    simp [hpd]

/-- C5 (witness): with pandas absent the concrete upload is answered by the
informational message with the full preview byte count. -/
theorem unable_message_spec_witness :
    upload { envOk with pdAvailable := false } (some fileOk) CatalogFile.corrupt =
      { message := Msg.unableToAnalyze "kepler.csv"
          (if ({ envOk with pdAvailable := false } : SciEnv).pdAvailable then 0
            else min 1024 fileOk.content.length),
        dips := [], analysis := none, catalogFile := CatalogFile.corrupt,
        catalogRead := false } :=
  unable_message_spec { envOk with pdAvailable := false } fileOk CatalogFile.corrupt
    (by decide) (Or.inl rfl)

/-- C6 (counterexample): a prior file that parses to a mapping with a
non-record-list value (here `{"a": 5}`) is neither treated as empty nor
rejected: the write happens on a successful analysis, and the content
written is not the serialization of a well-formed mapping from dataset
names to record lists. -/
theorem catalog_write_not_wellformed_cex :
    (upload envOk (some fileOk)
        (CatalogFile.parsed (Json.obj [("a", Json.num 5)]))).message =
      Msg.analysisComplete 0.2 1 ∧
    (upload envOk (some fileOk)
        (CatalogFile.parsed (Json.obj [("a", Json.num 5)]))).catalogFile =
      CatalogFile.parsed
        (Json.obj [("a", Json.num 5), ("custom", Json.arr [recordJson "kepler" 0.2 1])]) ∧
    wellFormedCatalog
        (Json.obj [("a", Json.num 5), ("custom", Json.arr [recordJson "kepler" 0.2 1])]) =
      false :=
  ⟨rfl, rfl, rfl⟩

/-- C6 (amended): on a successful analysis, a missing or unparseable prior
catalog file is read as the empty mapping; a read or write failure never
raises out of the handler — the theorem quantifies over every `WriteMode`,
so the completion message is rendered whether the write completes, `open`
fails, or the dump fails after truncating the file; and whenever the write
completes and the prior parsed content is a well-formed mapping from
dataset names to record lists (in particular after the empty-mapping
fallback), the content written is again the serialization of such a
well-formed mapping.  No claim is made about the file content a failed
dump leaves behind (the truncate-then-dump order means it can be empty or
a partial serialization). -/
theorem catalog_write_spec (env : SciEnv) (f : UploadedFile) (fs : CatalogFile)
    (df : DataFrame) (p pw : ℚ)
    (hfn : ¬ f.filename = "") (hpd : env.pdAvailable = true)
    (hread : env.readCsv f.content = Except.ok df) (hlk : env.lkAvailable = true)
    (ht : hasCol df "time" = true) (hfx : hasCol df "flux" = true)
    (hbls : env.bls (colVals df "time") (colVals df "flux") 0.2 30.0 = Except.ok (p, pw))
    (hwf : wellFormedCatalog (readCatalog fs) = true) :
    readCatalog CatalogFile.missing = Json.obj [] ∧
    readCatalog CatalogFile.corrupt = Json.obj [] ∧
    (upload env (some f) fs).message = Msg.analysisComplete p (computeRadius env pw) ∧
    (env.writeMode = WriteMode.ok →
      wellFormedCatalogFile (upload env (some f) fs).catalogFile = true) := by
  cases hj : readCatalog fs with
  | obj fields =>
    rw [hj] at hwf
    unfold wellFormedCatalog at hwf
    have hx : lookupKey "custom" fields = some (Json.arr
        (match lookupKey "custom" fields with
          | some (Json.arr ys) => ys
          | _ => [])) ∨
        (hasKey "custom" fields = false ∧
          (match lookupKey "custom" fields with
            | some (Json.arr ys) => ys
            | _ => []) = []) := by
      cases hcu : lookupKey "custom" fields with
      | none =>
        refine Or.inr ⟨?_, rfl⟩
        cases hk : hasKey "custom" fields
        · rfl
        · obtain ⟨v, hv⟩ := hasKey_true_lookup hk
          rw [hv] at hcu
          exact Option.noConfusion hcu
      | some v =>
        have hrl := lookup_all hcu hwf
        cases v with
        | arr ys => exact Or.inl rfl
        | null => simp [isRecordList] at hrl
        | bool b => simp [isRecordList] at hrl
        | num q => simp [isRecordList] at hrl
        | str s => simp [isRecordList] at hrl
        | obj o => simp [isRecordList] at hrl
    obtain ⟨fields2, hupd, _, _, hwf2⟩ :=
      updateCustom_obj fields _ (recordJson (splitext f.filename).1 p (computeRadius env pw)) hx
    rw [← hj] at hupd
    have heq := upload_success_ok hfn hpd hread hlk ht hfx hbls hupd
    rw [heq]
    refine ⟨rfl, rfl, rfl, ?_⟩
    intro hwm
    simp only [hwm, writeResult, wellFormedCatalogFile, wellFormedCatalog]
    exact hwf2 hwf (isRecordJson_recordJson _ _ _)
  | null => rw [hj] at hwf; simp [wellFormedCatalog] at hwf
  | bool b => rw [hj] at hwf; simp [wellFormedCatalog] at hwf
  | num q => rw [hj] at hwf; simp [wellFormedCatalog] at hwf
  | str s => rw [hj] at hwf; simp [wellFormedCatalog] at hwf
  | arr xs => rw [hj] at hwf; simp [wellFormedCatalog] at hwf

/-- C6 (witness): a successful upload over a missing catalog file renders
the completion message and persists a well-formed catalog. -/
theorem catalog_write_spec_witness :
    (upload envOk (some fileOk) CatalogFile.missing).message =
      Msg.analysisComplete 0.2 (computeRadius envOk 1) ∧
    wellFormedCatalogFile (upload envOk (some fileOk) CatalogFile.missing).catalogFile =
      true :=
  ⟨(catalog_write_spec envOk fileOk CatalogFile.missing dfOk 0.2 1
      (by decide) rfl rfl rfl rfl rfl rfl rfl).2.2.1,
   (catalog_write_spec envOk fileOk CatalogFile.missing dfOk 0.2 1
      (by decide) rfl rfl rfl rfl rfl rfl rfl).2.2.2 rfl⟩

/-- C7: posting to `/upload` with no file or an empty filename yields the
"No file uploaded" message, no analysis, an empty dips list, and the
catalog file is neither read nor mutated. -/
theorem no_file_no_effect (env : SciEnv) (file? : Option UploadedFile) (fs : CatalogFile)
    (h : file? = none ∨ ∃ f, file? = some f ∧ f.filename = "") :
    upload env file? fs =
      { message := Msg.noFile, dips := [], analysis := none, catalogFile := fs,
        catalogRead := false } := by
  rcases h with rfl | ⟨f, rfl, hf⟩
  · rfl
  · simp [upload, hf]

/-- C7 (witness): the concrete no-file POST. -/
theorem no_file_no_effect_witness :
    upload envOk none CatalogFile.missing =
      { message := Msg.noFile, dips := [], analysis := none,
        catalogFile := CatalogFile.missing, catalogRead := false } :=
  no_file_no_effect envOk none CatalogFile.missing (Or.inl rfl)

/-- C8: every POST to `/predict` renders the placeholder probabilities
(`Confirmed exoplanet: 0.0, Planet candidate: 0.0, False positive: 0.0`)
and an empty contribution list; a missing field parses as `0` and a field
whose `float(...)` raises defaults silently to `0`; being a total function
of the form, the handler raises no server error. -/
theorem predict_placeholder (env : PredictEnv) (form : PredictForm) :
    (predict env form).probabilities =
      [("Confirmed exoplanet", (0 : ℚ)), ("Planet candidate", 0), ("False positive", 0)] ∧
    (predict env form).contributions = [] ∧
    (predict env form).predicted_class = "Pending integration" ∧
    (predict env form).features =
      [getFloat env form.orbital_period, getFloat env form.transit_duration,
        getFloat env form.planet_radius] ∧
    (∀ s, env.parseFloat s = none → getFloat env (some s) = 0) ∧
    getFloat env none = 0 := by
  refine ⟨rfl, rfl, rfl, rfl, ?_, rfl⟩
  intro s hs
  simp [getFloat, hs]

/-- C8 (witness): a concrete form with a malformed and a missing field. -/
theorem predict_placeholder_witness :
    (predict envP formP).probabilities =
      [("Confirmed exoplanet", (0 : ℚ)), ("Planet candidate", 0), ("False positive", 0)] ∧
    getFloat envP (some "abc") = 0 :=
  ⟨(predict_placeholder envP formP).1,
   (predict_placeholder envP formP).2.2.2.2.1 "abc" rfl⟩

/-- C9: on every outcome branch of the `/upload` handler the `dips` list
passed to the rendered response is the empty list. -/
theorem dips_always_empty (env : SciEnv) (file? : Option UploadedFile) (fs : CatalogFile) :
    (upload env file? fs).dips = [] := by
  cases file? with
  | none => rfl
  | some f =>
    by_cases hfn : f.filename = ""
    · simp [upload, hfn]
    · simp only [upload, if_neg hfn]
      unfold uploadFile analyzeDF
      dsimp only
      repeat' split
      all_goals rfl

/-- C10: on a successful analysis with a record appended, the catalog
record's name is the filename with its extension split off by
`os.path.splitext`, while the analysis result keeps the full filename. -/
theorem record_name_is_stem
    (env : SciEnv) (f : UploadedFile) (fs : CatalogFile) (df : DataFrame) (p pw : ℚ)
    (fields : List (String × Json)) (xs : List Json)
    (hfn : ¬ f.filename = "") (hpd : env.pdAvailable = true)
    (hread : env.readCsv f.content = Except.ok df) (hlk : env.lkAvailable = true)
    (ht : hasCol df "time" = true) (hfx : hasCol df "flux" = true)
    (hbls : env.bls (colVals df "time") (colVals df "flux") 0.2 30.0 = Except.ok (p, pw))
    (hfs : readCatalog fs = Json.obj fields)
    (hx : lookupKey "custom" fields = some (Json.arr xs) ∨
      (hasKey "custom" fields = false ∧ xs = []))
    (hw : env.writeMode = WriteMode.ok) :
    (upload env (some f) fs).analysis =
      some { filename := f.filename, best_period := p,
             planet_radius := computeRadius env pw } ∧
    catalogLookup (upload env (some f) fs).catalogFile "custom" =
      some (Json.arr (xs ++
        [recordJson (splitext f.filename).1 p (computeRadius env pw)])) := by
  obtain ⟨fields2, hupd, hself, _, _⟩ :=
    updateCustom_obj fields xs (recordJson (splitext f.filename).1 p (computeRadius env pw)) hx
  rw [← hfs] at hupd
  have heq := upload_success_ok hfn hpd hread hlk ht hfx hbls hupd
  rw [heq]
  refine ⟨rfl, ?_⟩
  simp only [hw, writeResult, catalogLookup]
  exact hself

/-- C10 (witness): `kepler.csv` is recorded under the name `kepler` while
the analysis result keeps `kepler.csv`. -/
theorem record_name_is_stem_witness :
    (upload envOk (some fileOk) (CatalogFile.parsed (Json.obj []))).analysis =
      some { filename := "kepler.csv", best_period := 0.2, planet_radius := (1 : ℚ) } ∧
    catalogLookup (upload envOk (some fileOk)
        (CatalogFile.parsed (Json.obj []))).catalogFile "custom" =
      some (Json.arr [recordJson "kepler" 0.2 1]) :=
  record_name_is_stem envOk fileOk (CatalogFile.parsed (Json.obj [])) dfOk 0.2 1 [] []
    (by decide) rfl rfl rfl rfl rfl rfl rfl (Or.inr ⟨rfl, rfl⟩) rfl
